import Mathlib

/-!
Shallow embedding of `src/app.py` (NYT article summarizer) and proofs of the
behavioural claims about it.

Conventions of the embedding:
* Python strings are Lean `String` (lists of characters); the character-level
  regular expressions of `clean_text` are modelled as executable functions on
  `List Char`.
* Python's `\s` character class and `str.split()` whitespace are modelled by
  the six ASCII whitespace characters; the claims under study are insensitive
  to the exact whitespace alphabet.
* The external summarization model (`transformers` pipeline) is an oracle
  `String → Nat → Nat → Option String`: `some s` is a successful call whose
  summary text is `s`, `none` is any exception raised during the call.
* The network is an oracle `String → Nat → HttpOutcome` from (query, page) to
  the observed outcome of `requests.get`.
* Decoded JSON bodies are the inductive `Json`; Python's `in`, `[...]` and
  `.get` on decoded values are modelled by `pyIn`, `pyGetItem`, `pyGet`,
  returning `Except PyExn _` because they can raise (`KeyError`, `TypeError`,
  `AttributeError`) — only `requests.exceptions.RequestException` is caught by
  `fetch_articles`' `except` clause.
-/

namespace NYTSummarizer

/-- The six ASCII whitespace characters: the ASCII fragment of the character
class Python's `\s` and `str.split()` use. -/
def isPySpace (c : Char) : Bool :=
  c == ' ' || c == '\t' || c == '\n' || c == '\r' || c == '\x0b' || c == '\x0c'

/-- One step of scanning for the closing `>` of `re.sub(r'<.*?>', ...)`:
`.` does not match a newline, so the match attempt fails if `\n` occurs
before the first `>`. Returns the remainder after the closing `>`. -/
def dropTag : List Char → Option (List Char)
  | [] => none
  | c :: rest =>
    if c == '>' then some rest
    else if c == '\n' then none
    else dropTag rest

/-- `re.sub(r'<.*?>', '', ·)` on a character list, with explicit fuel to keep
the recursion structural. At every call `fuel ≥ length of the list` holds
(each step consumes one unit of fuel and at least one character), so the fuel
never runs out before the scan completes. -/
def removeTagsFuel : Nat → List Char → List Char
  | 0, l => l
  | _ + 1, [] => []
  | fuel + 1, c :: rest =>
    if c == '<' then
      match dropTag rest with
      | some rest' => removeTagsFuel fuel rest'
      | none => c :: removeTagsFuel fuel rest
    else
      c :: removeTagsFuel fuel rest

/-- `re.sub(r'<.*?>', '', ·)`: remove every leftmost non-greedy `<...>` match. -/
def removeTags (l : List Char) : List Char :=
  removeTagsFuel l.length l

/-- Characters kept by `re.sub(r'[^A-Za-z0-9\s.,!?\'"-]', '', ·)`. -/
def isCleanChar (c : Char) : Bool :=
  (decide ('A' ≤ c) && decide (c ≤ 'Z')) ||
  (decide ('a' ≤ c) && decide (c ≤ 'z')) ||
  (decide ('0' ≤ c) && decide (c ≤ '9')) ||
  isPySpace c ||
  c == '.' || c == ',' || c == '!' || c == '?' || c == '\'' || c == '"' || c == '-'

/-- `clean_text` (src/app.py lines 82-88): strip `<...>` tags, then strip all
characters outside the whitelist. -/
def clean_text (text : String) : String :=
  String.mk (List.filter isCleanChar (removeTags text.data))

/-- Word counter for `len(text.split())`: counts maximal runs of
non-whitespace characters. The boolean argument records whether the previous
character was inside a word. -/
def countWordsAux : List Char → Bool → Nat
  | [], _ => 0
  | c :: rest, inWord =>
    if isPySpace c then countWordsAux rest false
    else (if inWord then 0 else 1) + countWordsAux rest true

/-- `len(text.split())` for Python's whitespace `split`. -/
def countWords (s : String) : Nat :=
  countWordsAux s.data false

/-- What `summarize_text` decides to do after cleaning the text: either
return the cleaned text unsummarized (the `text_length < 50` short-circuit),
or invoke the model on the cleaned text with the derived bounds. -/
inductive SummarizeAction where
  | short (cleaned : String)
  | invoke (cleaned : String) (max_length min_length : Nat)
deriving DecidableEq

/-- The deterministic part of `summarize_text` (src/app.py lines 90-112):
clean the text, count words, short-circuit below 50 words, otherwise derive
`max_length = min(130, text_length - 10)`, `min_length = 30`, adjusting
`min_length` to `max_length // 2` if `min_length >= max_length`. -/
def summarize_text_plan (text : String) : SummarizeAction :=
  let text' := clean_text text
  let text_length := countWords text'
  if text_length < 50 then
    SummarizeAction.short text'
  else
    let max_length := min 130 (text_length - 10)
    let min_length := 30
    let min_length' := if min_length ≥ max_length then max_length / 2 else min_length
    SummarizeAction.invoke text' max_length min_length'

/-- `summarize_text` (src/app.py lines 90-117) with the summarization model as
an oracle; a `none` from the oracle is the `except` branch, which falls back
to the cleaned text. -/
def summarize_text (model : String → Nat → Nat → Option String) (text : String) : String :=
  match summarize_text_plan text with
  | SummarizeAction.short t => t
  | SummarizeAction.invoke t mx mn => (model t mx mn).getD t

/-- An Article Record from the search API: a mapping with optional string
fields. `headline_main` is the value of `article.get('headline', {}).get('main', ...)`
before the default is applied (absent when either `headline` or `headline.main`
is missing). -/
structure Article where
  abstract : Option String
  snippet : Option String
  lead_paragraph : Option String
  headline_main : Option String
  web_url : Option String
deriving DecidableEq

/-- Python's `sep.join(parts)`. -/
def pyJoin (sep : String) : List String → String
  | [] => ""
  | [s] => s
  | s :: rest => s ++ sep ++ pyJoin sep rest

/-- `get_article_content` (src/app.py lines 70-80): read `abstract`,
`snippet`, `lead_paragraph` in that order with default `''`, drop the falsy
(empty) parts, join the rest with a single space. -/
def get_article_content (article : Article) : String :=
  let content_parts := [article.abstract.getD "", article.snippet.getD "",
    article.lead_paragraph.getD ""]
  pyJoin " " (content_parts.filter (fun part => part != ""))

/-- One rendered result entry `{title, url, summary}`. -/
structure SummarizedArticle where
  title : String
  url : String
  summary : String
deriving DecidableEq

/-- The body of the per-article loop of the `summarize` route
(src/app.py lines 138-152): title and url with defaults, then either the
summarization pipeline (when the extracted content is truthy) or the fixed
placeholder summary. -/
def process_article (model : String → Nat → Nat → Option String)
    (article : Article) : SummarizedArticle :=
  let headline := article.headline_main.getD "No Title"
  let web_url := article.web_url.getD ""
  let content := get_article_content article
  let summary :=
    if content ≠ "" then summarize_text model content
    else "No content available to summarize."
  { title := headline, url := web_url, summary := summary }

/-- The accumulation loop of the `summarize` route (src/app.py lines
135-152): one appended `SummarizedArticle` per fetched article, in order. -/
def summarize (model : String → Nat → Nat → Option String) :
    List Article → List SummarizedArticle
  | [] => []
  | article :: rest => process_article model article :: summarize model rest

/-- Decoded JSON values (`response.json()`). -/
inductive Json where
  | null
  | bool (b : Bool)
  | num (n : Int)
  | str (s : String)
  | arr (elems : List Json)
  | obj (fields : List (String × Json))

/-- Key lookup in a decoded JSON object. -/
def Json.lookup : List (String × Json) → String → Option Json
  | [], _ => none
  | (k, v) :: rest, key => if k == key then some v else Json.lookup rest key

/-- Python exceptions that the embedded code can raise. -/
inductive PyExn where
  | requestException (msg : String)
  | keyError (key : String)
  | typeError (msg : String)
  | attributeError (msg : String)
deriving DecidableEq

/-- Python's `==` between a string and a decoded JSON value (used by `in` on
a list): only equal strings compare equal. -/
def jsonEqStr (key : String) : Json → Bool
  | Json.str s => s == key
  | _ => false

/-- Substring test on character lists, for Python's `in` on strings. -/
def subChars (needle : List Char) : List Char → Bool
  | [] => needle.isEmpty
  | c :: rest => needle.isPrefixOf (c :: rest) || subChars needle rest

/-- Python's `key in data` on a decoded JSON value: key membership for a
dict, `==`-membership for a list, substring test for a string, `TypeError`
otherwise. -/
def pyIn (key : String) : Json → Except PyExn Bool
  | Json.obj fields => Except.ok (Json.lookup fields key).isSome
  | Json.arr elems => Except.ok (elems.any (jsonEqStr key))
  | Json.str s => Except.ok (subChars key.data s.data)
  | _ => Except.error (PyExn.typeError "argument of type is not iterable")

/-- Python's `data[key]` on a decoded JSON value: raises `KeyError` for a
missing dict key and `TypeError` for non-dict receivers. -/
def pyGetItem : Json → String → Except PyExn Json
  | Json.obj fields, key =>
    match Json.lookup fields key with
    | some v => Except.ok v
    | none => Except.error (PyExn.keyError key)
  | Json.str _, _ => Except.error (PyExn.typeError "string indices must be integers")
  | Json.arr _, _ => Except.error (PyExn.typeError "list indices must be integers")
  | _, _ => Except.error (PyExn.typeError "object is not subscriptable")

/-- Python's `data.get(key, default)`: only dicts have `.get`, every other
receiver raises `AttributeError`. -/
def pyGet : Json → String → Json → Except PyExn Json
  | Json.obj fields, key, dflt => Except.ok ((Json.lookup fields key).getD dflt)
  | _, _, _ => Except.error (PyExn.attributeError "object has no attribute get")

/-- What `requests.get` produced: a raised network-level exception
(`requests.exceptions.RequestException`), or a response with a status code
and a decodable body. -/
inductive HttpOutcome where
  | exception (msg : String)
  | response (status : Nat) (body : Json)

/-- The value `fetch_articles` returns when it returns: the dict
`{"error": msg}` or the dict `{"articles": docs}`. The payloads are `Json`
because Python places whatever it computed there, string or not. -/
inductive FetchResult where
  | error (msg : Json)
  | articles (docs : Json)

/-- Message of the `HTTPError` raised by `response.raise_for_status()` for a
4xx/5xx status. Its exact text is produced by the external `requests`
library; it is modelled as a function of the status code only. -/
def raise_for_status_message (status : Nat) : String :=
  toString status ++ " Error"

/-- The `try`-block of `fetch_articles` (src/app.py lines 44-65): the
request, the 429 check, `raise_for_status`, the `fault` check, and the
`response.docs` extraction. Uncaught Python exceptions are `Except.error`. -/
def fetch_articles_try (net : String → Nat → HttpOutcome) (query : String)
    (page : Nat) : Except PyExn FetchResult :=
  match net query page with
  | HttpOutcome.exception msg => Except.error (PyExn.requestException msg)
  | HttpOutcome.response status body =>
    if status = 429 then
      Except.ok (FetchResult.error (Json.str "Rate limit exceeded. Please try again later."))
    else if 400 ≤ status ∧ status < 600 then
      Except.error (PyExn.requestException (raise_for_status_message status))
    else
      match pyIn "fault" body with
      | Except.error e => Except.error e
      | Except.ok true =>
        match pyGetItem body "fault" with
        | Except.error e => Except.error e
        | Except.ok fault =>
          match pyGetItem fault "faultstring" with
          | Except.error e => Except.error e
          | Except.ok fs => Except.ok (FetchResult.error fs)
      | Except.ok false =>
        match pyGet body "response" (Json.obj []) with
        | Except.error e => Except.error e
        | Except.ok resp =>
          match pyGet resp "docs" (Json.arr []) with
          | Except.error e => Except.error e
          | Except.ok docs => Except.ok (FetchResult.articles docs)

/-- `fetch_articles` (src/app.py lines 38-68): the missing-key guard
(`if not NYT_API_KEY`, true for an unset or empty key), then the `try` block
with `except requests.exceptions.RequestException as e: return {"error": str(e)}`.
Any other exception escapes the function. -/
def fetch_articles (apiKey : Option String) (net : String → Nat → HttpOutcome)
    (query : String) (page : Nat) : Except PyExn FetchResult :=
  if apiKey.getD "" = "" then
    Except.ok (FetchResult.error (Json.str
      "NYT API key is missing. Please set NYT_API_KEY in your environment variables."))
  else
    match fetch_articles_try net query page with
    | Except.ok r => Except.ok r
    | Except.error (PyExn.requestException msg) =>
      Except.ok (FetchResult.error (Json.str msg))
    | Except.error e => Except.error e

/-- Whether a `SummarizeAction` is a model invocation. -/
def SummarizeAction.isInvoke : SummarizeAction → Bool
  | SummarizeAction.invoke _ _ _ => true
  | _ => false

/-- A 40-word input: its cleaned word count satisfies `text_length - 10 ≤ 30`. -/
def fortyWordInput : String :=
  "w w w w w w w w w w w w w w w w w w w w w w w w w w w w w w w w w w w w w w w w"

/-- A 2-word input, below the 50-word short-circuit threshold. -/
def twoWordInput : String := "hello world"

/-- A 50-word input, the smallest count past the short-circuit. -/
def fiftyWordInput : String :=
  "w w w w w w w w w w w w w w w w w w w w w w w w w w w w w w w w w w w w w w w w w w w w w w w w w w"

/-- A 60-word input. -/
def sixtyWordInput : String :=
  "w w w w w w w w w w w w w w w w w w w w w w w w w w w w w w w w w w w w w w w w w w w w w w w w w w w w w w w w w w w w"

/-- C2: below 50 cleaned words, `summarize_text` returns the cleaned text
itself and the summarization model is never invoked. -/
theorem summarize_text_short_circuit (text : String)
    (h : countWords (clean_text text) < 50) :
    summarize_text_plan text = SummarizeAction.short (clean_text text) ∧
    ∀ model : String → Nat → Nat → Option String,
      summarize_text model text = clean_text text := by
  constructor
  · simp [summarize_text_plan, h]
  · intro model
    simp [summarize_text, summarize_text_plan, h]

/-- Witness for C2 at a concrete 2-word input. -/
theorem summarize_text_short_circuit_witness :
    countWords (clean_text twoWordInput) < 50 ∧
    (summarize_text_plan twoWordInput = SummarizeAction.short (clean_text twoWordInput) ∧
    ∀ model : String → Nat → Nat → Option String,
      summarize_text model twoWordInput = clean_text twoWordInput) :=
  ⟨by decide, summarize_text_short_circuit twoWordInput (by decide)⟩

/-- C3: at 60 or more cleaned words, the bounds are
`max_length = min 130 (text_length - 10)` and `min_length = 30`, with
`min_length < max_length`. -/
theorem summarize_text_long_bounds (text : String)
    (h : 60 ≤ countWords (clean_text text)) :
    summarize_text_plan text =
      SummarizeAction.invoke (clean_text text)
        (min 130 (countWords (clean_text text) - 10)) 30 ∧
    30 < min 130 (countWords (clean_text text) - 10) := by
  have h50 : ¬ countWords (clean_text text) < 50 := by omega
  refine ⟨?_, by omega⟩
  simp only [summarize_text_plan]
  rw [if_neg h50,
    if_neg (by omega : ¬ (30:Nat) ≥ min 130 (countWords (clean_text text) - 10))]

/-- Witness for C3 at a concrete 60-word input. -/
theorem summarize_text_long_bounds_witness :
    60 ≤ countWords (clean_text sixtyWordInput) ∧
    (summarize_text_plan sixtyWordInput =
      SummarizeAction.invoke (clean_text sixtyWordInput)
        (min 130 (countWords (clean_text sixtyWordInput) - 10)) 30 ∧
    30 < min 130 (countWords (clean_text sixtyWordInput) - 10)) :=
  ⟨by decide, summarize_text_long_bounds sixtyWordInput (by decide)⟩

/-- C10: at 50 or more cleaned words, `max_length ≥ 40 > 30 = min_length`, so
the `min_length >= max_length` adjustment branch is never taken: `min_length`
stays 30. -/
theorem summarize_text_adjustment_unreachable (text : String)
    (h : 50 ≤ countWords (clean_text text)) :
    summarize_text_plan text =
      SummarizeAction.invoke (clean_text text)
        (min 130 (countWords (clean_text text) - 10)) 30 ∧
    40 ≤ min 130 (countWords (clean_text text) - 10) := by
  have h50 : ¬ countWords (clean_text text) < 50 := by omega
  refine ⟨?_, by omega⟩
  simp only [summarize_text_plan]
  rw [if_neg h50,
    if_neg (by omega : ¬ (30:Nat) ≥ min 130 (countWords (clean_text text) - 10))]

/-- Witness for C10 at a concrete 50-word input. -/
theorem summarize_text_adjustment_unreachable_witness :
    50 ≤ countWords (clean_text fiftyWordInput) ∧
    (summarize_text_plan fiftyWordInput =
      SummarizeAction.invoke (clean_text fiftyWordInput)
        (min 130 (countWords (clean_text fiftyWordInput) - 10)) 30 ∧
    40 ≤ min 130 (countWords (clean_text fiftyWordInput) - 10)) :=
  ⟨by decide, summarize_text_adjustment_unreachable fiftyWordInput (by decide)⟩

/-- Counterexample to C1: a 40-word input has `text_length - 10 ≤ 30`, yet
`summarize_text` takes the short-circuit branch and never reaches the
adjustment step (it returns the cleaned text without computing bounds). -/
theorem summarize_text_adjustment_unreached_at_forty_words :
    countWords (clean_text fortyWordInput) - 10 ≤ 30 ∧
    summarize_text_plan fortyWordInput =
      SummarizeAction.short (clean_text fortyWordInput) ∧
    (summarize_text_plan fortyWordInput).isInvoke = false := by
  refine ⟨by decide, by decide, by decide⟩

/-- C1 amended: any input whose cleaned word count `text_length` satisfies
`text_length - 10 ≤ 30` (that is, `text_length ≤ 40`) is below the 50-word
threshold, so `summarize_text` short-circuits and the adjustment step is
never reached. -/
theorem summarize_text_small_always_short (text : String)
    (h : countWords (clean_text text) - 10 ≤ 30) :
    summarize_text_plan text = SummarizeAction.short (clean_text text) := by
  have h50 : countWords (clean_text text) < 50 := by omega
  simp [summarize_text_plan, h50]

/-- Witness for the amended C1 at the concrete 40-word input. -/
theorem summarize_text_small_always_short_witness :
    countWords (clean_text fortyWordInput) - 10 ≤ 30 ∧
    summarize_text_plan fortyWordInput =
      SummarizeAction.short (clean_text fortyWordInput) :=
  ⟨by decide, summarize_text_small_always_short fortyWordInput (by decide)⟩

/-- C6: `get_article_content` reads `abstract`, `snippet`, `lead_paragraph`
in that order, treats a missing field like an empty one, drops empty parts
and joins the rest with single spaces; with only `snippet = b` it returns
`b`, and with all three fields absent or empty it returns `""`. -/
theorem get_article_content_spec (a b c : String)
    (ha : a ≠ "") (hb : b ≠ "") (hc : c ≠ "") (hm ur : Option String) :
    get_article_content ⟨some a, some b, some c, hm, ur⟩ =
      a ++ " " ++ (b ++ " " ++ c) ∧
    get_article_content ⟨none, some b, none, hm, ur⟩ = b ∧
    get_article_content ⟨none, some b, none, hm, ur⟩ =
      get_article_content ⟨some "", some b, some "", hm, ur⟩ ∧
    get_article_content ⟨none, none, none, hm, ur⟩ = "" ∧
    get_article_content ⟨some "", some "", some "", hm, ur⟩ = "" := by
  refine ⟨?_, ?_, ?_, ?_, ?_⟩ <;>
    simp [get_article_content, List.filter_cons, pyJoin, ha, hb, hc]

/-- Witness for C6 at concrete field values. -/
theorem get_article_content_spec_witness :
    get_article_content ⟨some "x", some "y", some "z", none, none⟩ =
      "x" ++ " " ++ ("y" ++ " " ++ "z") ∧
    get_article_content ⟨none, some "y", none, none, none⟩ = "y" ∧
    get_article_content ⟨none, some "y", none, none, none⟩ =
      get_article_content ⟨some "", some "y", some "", none, none⟩ ∧
    get_article_content ⟨none, none, none, none, none⟩ = "" ∧
    get_article_content ⟨some "", some "", some "", none, none⟩ = "" :=
  get_article_content_spec "x" "y" "z" (by decide) (by decide) (by decide) none none

/-- If `'<'` does not occur in the list, tag removal leaves it unchanged,
whatever the fuel. -/
theorem removeTagsFuel_of_not_mem (fuel : Nat) (l : List Char) (h : '<' ∉ l) :
    removeTagsFuel fuel l = l := by
  induction fuel generalizing l with
  | zero => rfl
  | succ fuel ih =>
    cases l with
    | nil => rfl
    | cons c rest =>
      have hc : ¬ c = '<' := fun he => h (he ▸ List.mem_cons_self c rest)
      have hrest : '<' ∉ rest := fun hm => h (List.mem_cons_of_mem c hm)
      simp [removeTagsFuel, hc, ih rest hrest]

/-- If `'<'` does not occur in the list, `removeTags` leaves it unchanged. -/
theorem removeTags_of_not_mem (l : List Char) (h : '<' ∉ l) :
    removeTags l = l :=
  removeTagsFuel_of_not_mem l.length l h

/-- The whitelist filter never keeps `'<'`. -/
theorem not_lt_mem_filter (l : List Char) :
    '<' ∉ List.filter isCleanChar l := by
  intro h
  exact absurd (List.mem_filter.mp h).2 (by decide)

/-- C7: `clean_text` is idempotent. -/
theorem clean_text_idempotent (s : String) :
    clean_text (clean_text s) = clean_text s := by
  show String.mk (List.filter isCleanChar (removeTags
      (List.filter isCleanChar (removeTags s.data)))) =
    String.mk (List.filter isCleanChar (removeTags s.data))
  rw [removeTags_of_not_mem _ (not_lt_mem_filter _),
    List.filter_eq_self.mpr (fun a ha => (List.mem_filter.mp ha).2)]

/-- Index access into the orchestrator's output: the `i`-th result is the
processed `i`-th article. -/
theorem summarize_getElem (model : String → Nat → Nat → Option String)
    (articles : List Article) (i : Nat) :
    (summarize model articles)[i]? = (articles[i]?).map (process_article model) := by
  induction articles generalizing i with
  | nil => simp [summarize]
  | cons a rest ih =>
    cases i with
    | zero => simp [summarize]
    | succ n => simp [summarize, ih]

/-- The orchestrator's output has one entry per fetched article. -/
theorem summarize_length (model : String → Nat → Nat → Option String)
    (articles : List Article) :
    (summarize model articles).length = articles.length := by
  induction articles with
  | nil => rfl
  | cons a rest ih => simp [summarize, ih]

/-- C4: the orchestrator produces exactly one `SummarizedArticle` per fetched
article, in the same positions as the input list, for every behaviour of the
summarization model; an article with no extractable content gets exactly the
fixed placeholder summary. -/
theorem summarize_one_per_article (model : String → Nat → Nat → Option String)
    (articles : List Article) (i : Nat) (h : i < articles.length) :
    (summarize model articles).length = articles.length ∧
    (summarize model articles)[i]? = some (process_article model articles[i]) ∧
    (get_article_content articles[i] = "" →
      (summarize model articles)[i]? =
        some { title := (articles[i]).headline_main.getD "No Title",
               url := (articles[i]).web_url.getD "",
               summary := "No content available to summarize." }) := by
  have hlen : (summarize model articles).length = articles.length :=
    summarize_length model articles
  have hget : (summarize model articles)[i]? =
      some (process_article model articles[i]) := by
    rw [summarize_getElem, List.getElem?_eq_getElem h]
    rfl
  refine ⟨hlen, hget, fun hc => ?_⟩
  rw [hget]
  simp [process_article, hc]

/-- A fixed model oracle for the C4 witness. -/
def witnessModel : String → Nat → Nat → Option String :=
  fun _ _ _ => some "a summary"

/-- An article with extractable content, for the C4 witness. -/
def witnessArticleFull : Article :=
  { abstract := some "An abstract.", snippet := none, lead_paragraph := none,
    headline_main := some "A Title", web_url := some "u" }

/-- An article with no content fields, for the C4 witness. -/
def witnessArticleEmpty : Article :=
  { abstract := none, snippet := none, lead_paragraph := none,
    headline_main := none, web_url := none }

/-- Witness for C4 on a concrete two-article list at index 1. -/
theorem summarize_one_per_article_witness :
    (summarize witnessModel [witnessArticleFull, witnessArticleEmpty]).length =
      [witnessArticleFull, witnessArticleEmpty].length ∧
    (summarize witnessModel [witnessArticleFull, witnessArticleEmpty])[1]? =
      some (process_article witnessModel
        ([witnessArticleFull, witnessArticleEmpty][1])) ∧
    (get_article_content ([witnessArticleFull, witnessArticleEmpty][1]) = "" →
      (summarize witnessModel [witnessArticleFull, witnessArticleEmpty])[1]? =
        some { title :=
                 (([witnessArticleFull, witnessArticleEmpty][1])).headline_main.getD
                   "No Title",
               url := (([witnessArticleFull, witnessArticleEmpty][1])).web_url.getD "",
               summary := "No content available to summarize." }) :=
  summarize_one_per_article witnessModel [witnessArticleFull, witnessArticleEmpty]
    1 (by decide)

/-- A decoded body on which the success path of `fetch_articles` cannot
raise and yields the documented shapes: a JSON object whose `fault` field,
when present, is an object with a string `faultstring`, and whose `response`
field, when `fault` is absent, is absent or an object whose `docs` field is
absent or a list. -/
def bodyWellShaped : Json → Bool
  | Json.obj fields =>
    match Json.lookup fields "fault" with
    | none =>
      (match Json.lookup fields "response" with
       | none => true
       | some (Json.obj rf) =>
         (match Json.lookup rf "docs" with
          | none => true
          | some (Json.arr _) => true
          | some _ => false)
       | some _ => false)
    | some (Json.obj ff) =>
      (match Json.lookup ff "faultstring" with
       | some (Json.str _) => true
       | _ => false)
    | some _ => false
  | _ => false

/-- The documented result shape of `fetch_articles`: `{"error": s}` with a
string payload, or `{"articles": l}` with a list payload. -/
def resultWellShaped : FetchResult → Bool
  | FetchResult.error (Json.str _) => true
  | FetchResult.articles (Json.arr _) => true
  | _ => false

/-- C8: with no API key configured (unset or empty), `fetch_articles`
returns the fixed configuration error, and its result does not depend on the
network at all (no network call is consulted). -/
theorem fetch_articles_missing_key (apiKey : Option String)
    (h : apiKey.getD "" = "") (net net' : String → Nat → HttpOutcome)
    (query : String) (page : Nat) :
    fetch_articles apiKey net query page =
      Except.ok (FetchResult.error (Json.str
        "NYT API key is missing. Please set NYT_API_KEY in your environment variables.")) ∧
    fetch_articles apiKey net query page = fetch_articles apiKey net' query page := by
  constructor <;> simp [fetch_articles, h]

/-- Witness for C8 with an unset key and two distinct network oracles. -/
theorem fetch_articles_missing_key_witness :
    fetch_articles none (fun _ _ => HttpOutcome.exception "boom") "climate" 0 =
      Except.ok (FetchResult.error (Json.str
        "NYT API key is missing. Please set NYT_API_KEY in your environment variables.")) ∧
    fetch_articles none (fun _ _ => HttpOutcome.exception "boom") "climate" 0 =
      fetch_articles none (fun _ _ => HttpOutcome.response 200 (Json.obj [])) "climate" 0 :=
  fetch_articles_missing_key none (by decide)
    (fun _ _ => HttpOutcome.exception "boom")
    (fun _ _ => HttpOutcome.response 200 (Json.obj [])) "climate" 0

/-- C9: when the request is made (key present) and the endpoint answers with
HTTP 429, `fetch_articles` returns the fixed rate-limit error, for every
body whatsoever. -/
theorem fetch_articles_rate_limit (apiKey : Option String)
    (hkey : ¬ apiKey.getD "" = "") (net : String → Nat → HttpOutcome)
    (query : String) (page : Nat) (body : Json)
    (hresp : net query page = HttpOutcome.response 429 body) :
    fetch_articles apiKey net query page =
      Except.ok (FetchResult.error (Json.str
        "Rate limit exceeded. Please try again later.")) := by
  simp [fetch_articles, hkey, fetch_articles_try, hresp]

/-- Witness for C9 with a present key and a non-dict 429 body. -/
theorem fetch_articles_rate_limit_witness :
    fetch_articles (some "key")
      (fun _ _ => HttpOutcome.response 429 (Json.num 7)) "climate" 0 =
      Except.ok (FetchResult.error (Json.str
        "Rate limit exceeded. Please try again later.")) :=
  fetch_articles_rate_limit (some "key") (by decide)
    (fun _ _ => HttpOutcome.response 429 (Json.num 7)) "climate" 0 (Json.num 7) rfl

/-- Counterexample to C5: a 200 response with the decodable body
`{"fault": {}}` makes `data['fault']['faultstring']` raise a `KeyError`,
which the `except requests.exceptions.RequestException` clause does not
catch, so `fetch_articles` raises past its boundary. -/
theorem fetch_articles_raises_on_empty_fault :
    fetch_articles (some "key")
      (fun _ _ => HttpOutcome.response 200 (Json.obj [("fault", Json.obj [])]))
      "q" 0 =
      Except.error (PyExn.keyError "faultstring") := by
  rfl

/-- C5 amended: for every query, page, API key, and upstream outcome whose
decoded body (when a response arrives) is well shaped in the sense of
`bodyWellShaped`, `fetch_articles` returns normally with either a string
`error` or a list `articles`; every network-level exception is converted to
the error shape. -/
theorem fetch_articles_result_shape (apiKey : Option String)
    (net : String → Nat → HttpOutcome) (query : String) (page : Nat)
    (hbody : ∀ status body, net query page = HttpOutcome.response status body →
      bodyWellShaped body = true) :
    ∃ r, fetch_articles apiKey net query page = Except.ok r ∧
      resultWellShaped r = true := by
  by_cases hkey : apiKey.getD "" = ""
  · refine ⟨FetchResult.error (Json.str
      "NYT API key is missing. Please set NYT_API_KEY in your environment variables."),
      ?_, rfl⟩
    simp [fetch_articles, hkey]
  · rcases hnet : net query page with msg | ⟨status, body⟩
    · refine ⟨FetchResult.error (Json.str msg), ?_, rfl⟩
      simp [fetch_articles, hkey, fetch_articles_try, hnet]
    · have hb := hbody status body hnet
      by_cases h429 : status = 429
      · refine ⟨FetchResult.error (Json.str
          "Rate limit exceeded. Please try again later."), ?_, rfl⟩
        simp [fetch_articles, hkey, fetch_articles_try, hnet, h429]
      · by_cases herr : 400 ≤ status ∧ status < 600
        · refine ⟨FetchResult.error (Json.str (raise_for_status_message status)),
            ?_, rfl⟩
          simp [fetch_articles, hkey, fetch_articles_try, hnet, h429, herr]
        · cases body with
          | obj fields =>
            cases hf : Json.lookup fields "fault" with
            | none =>
              cases hr : Json.lookup fields "response" with
              | none =>
                refine ⟨FetchResult.articles (Json.arr []), ?_, rfl⟩
                simp [fetch_articles, hkey, fetch_articles_try, hnet, h429, herr,
                  pyIn, pyGetItem, pyGet, hf, hr, Json.lookup]
              | some v =>
                cases v with
                | obj rf =>
                  cases hd : Json.lookup rf "docs" with
                  | none =>
                    refine ⟨FetchResult.articles (Json.arr []), ?_, rfl⟩
                    simp [fetch_articles, hkey, fetch_articles_try, hnet, h429,
                      herr, pyIn, pyGetItem, pyGet, hf, hr, hd]
                  | some d =>
                    cases d with
                    | arr xs =>
                      refine ⟨FetchResult.articles (Json.arr xs), ?_, rfl⟩
                      simp [fetch_articles, hkey, fetch_articles_try, hnet, h429,
                        herr, pyIn, pyGetItem, pyGet, hf, hr, hd]
                    | null => simp [bodyWellShaped, hf, hr, hd] at hb
                    | bool b => simp [bodyWellShaped, hf, hr, hd] at hb
                    | num n => simp [bodyWellShaped, hf, hr, hd] at hb
                    | str s => simp [bodyWellShaped, hf, hr, hd] at hb
                    | obj o => simp [bodyWellShaped, hf, hr, hd] at hb
                | null => simp [bodyWellShaped, hf, hr] at hb
                | bool b => simp [bodyWellShaped, hf, hr] at hb
                | num n => simp [bodyWellShaped, hf, hr] at hb
                | str s => simp [bodyWellShaped, hf, hr] at hb
                | arr l => simp [bodyWellShaped, hf, hr] at hb
            | some f =>
              cases f with
              | obj ff =>
                cases hfs : Json.lookup ff "faultstring" with
                | none => simp [bodyWellShaped, hf, hfs] at hb
                | some fs =>
                  cases fs with
                  | str s =>
                    refine ⟨FetchResult.error (Json.str s), ?_, rfl⟩
                    simp [fetch_articles, hkey, fetch_articles_try, hnet, h429,
                      herr, pyIn, pyGetItem, pyGet, hf, hfs]
                  | null => simp [bodyWellShaped, hf, hfs] at hb
                  | bool b => simp [bodyWellShaped, hf, hfs] at hb
                  | num n => simp [bodyWellShaped, hf, hfs] at hb
                  | arr l => simp [bodyWellShaped, hf, hfs] at hb
                  | obj o => simp [bodyWellShaped, hf, hfs] at hb
              | null => simp [bodyWellShaped, hf] at hb
              | bool b => simp [bodyWellShaped, hf] at hb
              | num n => simp [bodyWellShaped, hf] at hb
              | str s => simp [bodyWellShaped, hf] at hb
              | arr l => simp [bodyWellShaped, hf] at hb
          | null => simp [bodyWellShaped] at hb
          | bool b => simp [bodyWellShaped] at hb
          | num n => simp [bodyWellShaped] at hb
          | str s => simp [bodyWellShaped] at hb
          | arr l => simp [bodyWellShaped] at hb

/-- Witness for the amended C5 at a concrete well-shaped 200 response. -/
theorem fetch_articles_result_shape_witness :
    ∃ r, fetch_articles (some "key")
        (fun _ _ => HttpOutcome.response 200
          (Json.obj [("response", Json.obj [("docs", Json.arr [])])])) "q" 0 =
        Except.ok r ∧ resultWellShaped r = true :=
  fetch_articles_result_shape (some "key")
    (fun _ _ => HttpOutcome.response 200
      (Json.obj [("response", Json.obj [("docs", Json.arr [])])])) "q" 0
    (by
      intro status body h
      injection h with h1 h2
      subst h2
      rfl)

end NYTSummarizer
